import Mathlib

/-!
Verification development for a 2D flowchart editor (an Electron renderer
script).  The definitions below are a shallow embedding of the renderer's
shape classes, view transform, history manager and interaction handlers.

Scene-level state (shapes array, undo/redo history, clipboard, active tool)
is modelled over plain data with rational coordinates; the geometry that
involves trigonometry (rotated hit tests and handle layout) is modelled
over the real numbers.  JavaScript's floating-point numbers are idealised
as exact arithmetic throughout.
-/

namespace Flowchart

/-- Constant from the renderer: size of the square resize handles
(declared as a module-level constant with value 8). -/
def handleSize : ℚ := 8

/-- Minimum box dimension used by the resize handler: twice the handle size. -/
def minSize : ℚ := handleSize * 2

/-- Shape type tags, the strings stored in each shape's type field. -/
inductive ShapeType where
  | rectangle
  | circle
  | diamond
  | line
  | text
  | image
deriving DecidableEq

/-- A scene shape as stored in the shapes array: the fields of the Shape
base class (x, y, color, angle, flipH, flipV, id) together with the
subclass fields (width/height for box shapes, radius for circles, the two
endpoints and the stored delta vector for lines).  Cloning in the source
is a full value copy of these fields, so in this pure model cloning is the
identity and scene snapshots are plain data. -/
structure Shape where
  ty : ShapeType
  x : ℚ := 0
  y : ℚ := 0
  width : ℚ := 0
  height : ℚ := 0
  radius : ℚ := 0
  x1 : ℚ := 0
  y1 : ℚ := 0
  x2 : ℚ := 0
  y2 : ℚ := 0
  dx : ℚ := 0
  dy : ℚ := 0
  angle : ℚ := 0
  flipH : Bool := false
  flipV : Bool := false
  color : Option String := none
  id : ℚ := 0
deriving DecidableEq

instance : Inhabited Shape := ⟨{ ty := ShapeType.rectangle }⟩

/-- The active tool (the currentShapeType module variable). -/
inductive Tool where
  | rectangle
  | circle
  | diamond
  | line
  | text
  | image
  | default
deriving DecidableEq

/-- The module-level mutable state of the renderer that the claims touch:
the scene, the undo history with its cursor, the redo stack, the selection
(modelled as an index into the shapes array), the single-slot clipboard,
the active tool, the current color, and the line-drawing gesture state. -/
structure AppState where
  shapes : List Shape := []
  history : List (List Shape) := []
  redoStack : List (List Shape) := []
  historyIndex : Int := -1
  selectedShape : Option Nat := none
  clipboardShape : Option Shape := none
  currentShapeType : Tool := Tool.rectangle
  currentColor : Option String := none
  isDrawingLine : Bool := false
  lineStartX : ℚ := 0
  lineStartY : ℚ := 0
deriving DecidableEq

/-- The saveState function: clears the redo stack, truncates forward
history beyond the cursor, pushes a deep copy of the current shapes and
advances the cursor. -/
def saveState (st : AppState) : AppState :=
  { st with
    redoStack := []
    history := st.history.take (st.historyIndex + 1).toNat ++ [st.shapes]
    historyIndex := st.historyIndex + 1 }

/-- The undo function: a no-op at the oldest entry, otherwise pushes the
current scene onto the redo stack, moves the cursor back one step and
restores the snapshot at the new cursor, clearing the selection. -/
def undo (st : AppState) : AppState :=
  if st.historyIndex ≤ 0 then st
  else
    { st with
      redoStack := st.redoStack ++ [st.shapes]
      historyIndex := st.historyIndex - 1
      shapes := st.history.getD (st.historyIndex - 1).toNat []
      selectedShape := none }

/-- The redo function: a no-op when the redo stack is empty, otherwise
moves the current scene back into the history, advances the cursor and
restores the most recently pushed redo snapshot, clearing the selection. -/
def redo (st : AppState) : AppState :=
  if st.redoStack = [] then st
  else
    { st with
      history := st.history.take (st.historyIndex + 1).toNat ++ [st.shapes]
      historyIndex := st.historyIndex + 1
      shapes := st.redoStack.getLastD []
      redoStack := st.redoStack.dropLast
      selectedShape := none }

/-- The initial module state: empty scene, empty history, cursor -1. -/
def initState : AppState := {}

/-- One committed action: the scene is replaced by the post-action shapes
array and saveState records the commit point. -/
def commit (s : List Shape) (st : AppState) : AppState :=
  saveState { st with shapes := s }

/-- A run of the editor consisting only of committed actions: the startup
saveState call on the empty scene followed by one commit per action. -/
def runCommits (L : List (List Shape)) : AppState :=
  L.foldl (fun st s => commit s st) (saveState initState)

/-- The setActiveTool helper restricted to the state fields modelled here:
records the tool, deselects (its guard skips the assignment only when the
selection is already empty, so the net effect is always an empty
selection), and cancels line drawing when switching away from the line
tool. -/
def setActiveTool (t : Tool) (st : AppState) : AppState :=
  { st with
    currentShapeType := t
    selectedShape := none
    isDrawingLine := if t = Tool.line then st.isDrawingLine else false }

/-- The mousedown branch that places a new default-sized shape on empty
canvas with a box tool active: the shape is appended, saveState commits,
and the tool resets to the default selection tool. -/
def addNewShape (sh : Shape) (st : AppState) : AppState :=
  setActiveTool Tool.default
    (saveState { st with shapes := st.shapes ++ [sh], selectedShape := none })

/-- The colorPicker input handler: updates the current color and, when a
non-line shape is selected, recolors it and then commits via saveState. -/
def colorInput (c : String) (st : AppState) : AppState :=
  match st.selectedShape with
  | none => { st with currentColor := some c }
  | some i =>
      if (st.shapes.getD i default).ty = ShapeType.line then
        { st with currentColor := some c }
      else
        saveState
          { st with
            currentColor := some c
            shapes := st.shapes.set i { st.shapes.getD i default with color := some c } }

/-- The Delete/Backspace handler: with a selection, removes the selected
shape, clears the selection, cancels in-flight gesture flags and commits
via saveState. -/
def deleteSelected (st : AppState) : AppState :=
  match st.selectedShape with
  | none => st
  | some i =>
      saveState
        { st with
          shapes := st.shapes.eraseIdx i
          selectedShape := none
          isDrawingLine := false }

/-- The flipHorizontalButton click handler.  Note the source order: it
calls saveState BEFORE toggling flipH on the selected shape. -/
def flipHorizontalClick (st : AppState) : AppState :=
  match st.selectedShape with
  | none => st
  | some i =>
      let st1 := saveState st
      { st1 with
        shapes := st1.shapes.set i
          { st1.shapes.getD i default with
            flipH := !(st1.shapes.getD i default).flipH } }

/-- The flipVerticalButton click handler; like the horizontal one it calls
saveState BEFORE toggling flipV. -/
def flipVerticalClick (st : AppState) : AppState :=
  match st.selectedShape with
  | none => st
  | some i =>
      let st1 := saveState st
      { st1 with
        shapes := st1.shapes.set i
          { st1.shapes.getD i default with
            flipV := !(st1.shapes.getD i default).flipV } }

/-- The handleCopyCanvas function: with a selection, clones the selected
shape into the single-slot clipboard; with no selection, clears the
clipboard. -/
def handleCopyCanvas (st : AppState) : AppState :=
  match st.selectedShape with
  | some i => { st with clipboardShape := some (st.shapes.getD i default) }
  | none => { st with clipboardShape := none }

/-- The position offset applied by handlePasteCanvas: x and y move by 10,
and for lines both endpoints move by 10 as well. -/
def offsetPasted (sh : Shape) : Shape :=
  let sh1 := { sh with x := sh.x + 10, y := sh.y + 10 }
  if sh.ty = ShapeType.line then
    { sh1 with x1 := sh1.x1 + 10, y1 := sh1.y1 + 10,
               x2 := sh1.x2 + 10, y2 := sh1.y2 + 10 }
  else sh1

/-- The handlePasteCanvas function: a no-op when the clipboard is empty;
otherwise clones the clipboard shape, offsets it, gives it a fresh id
(the nondeterministic timestamp id is a parameter here), appends it,
selects it and commits via saveState. -/
def handlePasteCanvas (newId : ℚ) (st : AppState) : AppState :=
  match st.clipboardShape with
  | none => st
  | some sh =>
      saveState
        { st with
          shapes := st.shapes ++ [{ offsetPasted sh with id := newId }]
          selectedShape := some st.shapes.length }

/-- The Line constructor: the base anchor is the start point, both
endpoints are stored, and the delta vector dx/dy is cached for dragging. -/
def lineNew (x1 y1 x2 y2 : ℚ) (c : Option String) (newId : ℚ) : Shape :=
  { ty := ShapeType.line
    x := x1, y := y1
    x1 := x1, y1 := y1, x2 := x2, y2 := y2
    dx := x2 - x1, dy := y2 - y1
    color := c
    id := newId }

/-- The mouseup handler restricted to the line-drawing scenario (the
isDrawingLine flag is set and no drag/resize/rotate gesture is active, so
stateChanged is decided solely by the line branch): if the recorded start
point differs from the final mouse position a Line is appended, the tool
resets to default and saveState commits; if they coincide exactly the
gesture is silently discarded with no commit and no tool reset. -/
def mouseupDrawingLine (mouseX mouseY newId : ℚ) (st : AppState) : AppState :=
  if st.lineStartX = mouseX ∧ st.lineStartY = mouseY then
    { st with isDrawingLine := false }
  else
    saveState
      (setActiveTool Tool.default
        { st with
          shapes := st.shapes ++
            [lineNew st.lineStartX st.lineStartY mouseX mouseY st.currentColor newId]
          isDrawingLine := false })

/-- The Rectangle constructor: width and height are clamped from below to
twice the handle size. -/
def rectangleNew (x y w h : ℚ) (c : Option String) (newId : ℚ) : Shape :=
  { ty := ShapeType.rectangle
    x := x, y := y
    width := max w (handleSize * 2)
    height := max h (handleSize * 2)
    color := c
    id := newId }

/-- The Diamond constructor: same clamping as Rectangle. -/
def diamondNew (x y w h : ℚ) (c : Option String) (newId : ℚ) : Shape :=
  { ty := ShapeType.diamond
    x := x, y := y
    width := max w (handleSize * 2)
    height := max h (handleSize * 2)
    color := c
    id := newId }

/-- The ImageShape constructor: same clamping as Rectangle; images carry
no fill color (the bitmap payload is not modelled). -/
def imageShapeNew (x y w h : ℚ) (newId : ℚ) : Shape :=
  { ty := ShapeType.image
    x := x, y := y
    width := max w (handleSize * 2)
    height := max h (handleSize * 2)
    color := none
    id := newId }

/-- The handle kinds (the type strings returned by getHandles). -/
inductive HandleKind where
  | topLeft
  | topCenter
  | topRight
  | middleLeft
  | middleRight
  | bottomLeft
  | bottomCenter
  | bottomRight
  | rotation
deriving DecidableEq

/-- The box geometry a resize gesture works on: position and dimensions,
either the initial values captured at gesture start or the values being
written back. -/
structure BoxGeom where
  x : ℚ
  y : ℚ
  w : ℚ
  h : ℚ
deriving DecidableEq

/-- The resize switch of the mousemove handler: from the geometry captured
at gesture start and the mouse point already transformed into the initial
unrotated frame, compute the new x/y/width/height.  Every computed
dimension is clamped from below at minSize; the opposite edge stays
anchored.  The default case of the switch leaves the geometry unchanged. -/
def resizeBox (hk : HandleKind) (g : BoxGeom) (tmx tmy : ℚ) : BoxGeom :=
  match hk with
  | HandleKind.topLeft =>
      let newW := max minSize (g.x + g.w - tmx)
      let newH := max minSize (g.y + g.h - tmy)
      { x := g.x + g.w - newW, y := g.y + g.h - newH, w := newW, h := newH }
  | HandleKind.topCenter =>
      let newH := max minSize (g.y + g.h - tmy)
      { g with y := g.y + g.h - newH, h := newH }
  | HandleKind.topRight =>
      let newW := max minSize (tmx - g.x)
      let newH := max minSize (g.y + g.h - tmy)
      { g with w := newW, h := newH, y := g.y + g.h - newH }
  | HandleKind.middleLeft =>
      let newW := max minSize (g.x + g.w - tmx)
      { g with x := g.x + g.w - newW, w := newW }
  | HandleKind.middleRight =>
      { g with w := max minSize (tmx - g.x) }
  | HandleKind.bottomLeft =>
      let newW := max minSize (g.x + g.w - tmx)
      { g with x := g.x + g.w - newW, w := newW, h := max minSize (tmy - g.y) }
  | HandleKind.bottomCenter =>
      { g with h := max minSize (tmy - g.y) }
  | HandleKind.bottomRight =>
      { g with w := max minSize (tmx - g.x), h := max minSize (tmy - g.y) }
  | HandleKind.rotation => g

/-- Zoom clamp bounds (module constants). -/
def minZoom : ℚ := 1/10

/-- Upper zoom clamp bound. -/
def maxZoom : ℚ := 10

/-- Multiplicative zoom step of the wheel handler. -/
def zoomFactor : ℚ := 11/10

/-- The view transform: zoom level and pan offset. -/
structure ViewTransform where
  zoomLevel : ℚ
  offsetX : ℚ
  offsetY : ℚ
deriving DecidableEq

/-- Screen-to-canvas mapping, x coordinate (getMousePos). -/
def screenToCanvasX (v : ViewTransform) (sx : ℚ) : ℚ := (sx - v.offsetX) / v.zoomLevel

/-- Screen-to-canvas mapping, y coordinate (getMousePos). -/
def screenToCanvasY (v : ViewTransform) (sy : ℚ) : ℚ := (sy - v.offsetY) / v.zoomLevel

/-- Canvas-to-screen mapping, x coordinate (as used to place the text
input overlay and by the render transform). -/
def canvasToScreenX (v : ViewTransform) (cx : ℚ) : ℚ := cx * v.zoomLevel + v.offsetX

/-- Canvas-to-screen mapping, y coordinate. -/
def canvasToScreenY (v : ViewTransform) (cy : ℚ) : ℚ := cy * v.zoomLevel + v.offsetY

/-- The wheel event listener: computes the canvas point under the mouse
before the zoom, applies the multiplicative zoom step (direction from the
wheel delta sign), clamps the new zoom level into the minZoom..maxZoom
range, and re-solves the pan offset so that the same canvas point still
maps to the mouse's screen position. -/
def wheelZoom (v : ViewTransform) (px py : ℚ) (zoomIn : Bool) : ViewTransform :=
  let mouseXCanvasBefore := (px - v.offsetX) / v.zoomLevel
  let mouseYCanvasBefore := (py - v.offsetY) / v.zoomLevel
  let cand := if zoomIn then v.zoomLevel * zoomFactor else v.zoomLevel / zoomFactor
  let newZoomLevel := max minZoom (min maxZoom cand)
  { zoomLevel := newZoomLevel
    offsetX := px - mouseXCanvasBefore * newZoomLevel
    offsetY := py - mouseYCanvasBefore * newZoomLevel }

noncomputable section RealGeometry

/-- The flip factor used by draw, hit tests and handle layout: -1 when
the flag is set, 1 otherwise.  Scaling by -1 is its own inverse, so the
source divides in hit tests and multiplies in handle layout. -/
def flipSign (b : Bool) : ℝ := if b then -1 else 1

/-- The geometric fields shared by the Rectangle, Diamond and ImageShape
classes: bounding-box anchor (top-left), dimensions, rotation angle in
radians and the two flip flags.  Real-valued for the trigonometry. -/
structure Box where
  x : ℝ
  y : ℝ
  width : ℝ
  height : ℝ
  angle : ℝ
  flipH : Bool
  flipV : Bool

/-- getCenter for box shapes: anchor plus half extents (x coordinate). -/
def Box.centerX (b : Box) : ℝ := b.x + b.width / 2

/-- getCenter for box shapes, y coordinate. -/
def Box.centerY (b : Box) : ℝ := b.y + b.height / 2

/-- Steps 1-3 of the box hit tests: translate the mouse point so the
center is the origin, divide by the flip signs, then rotate by the
negated angle — x coordinate of the resulting local point. -/
def Box.localX (b : Box) (mx my : ℝ) : ℝ :=
  ((mx - b.centerX) / flipSign b.flipH) * Real.cos (-b.angle)
    - ((my - b.centerY) / flipSign b.flipV) * Real.sin (-b.angle)

/-- Local y coordinate of the inverse-transformed mouse point. -/
def Box.localY (b : Box) (mx my : ℝ) : ℝ :=
  ((mx - b.centerX) / flipSign b.flipH) * Real.sin (-b.angle)
    + ((my - b.centerY) / flipSign b.flipV) * Real.cos (-b.angle)

/-- Rectangle.isInside: the inverse-transformed point lies within the
axis-aligned box centred at the origin. -/
def Rectangle.isInside (b : Box) (mx my : ℝ) : Prop :=
  -(b.width / 2) ≤ b.localX mx my ∧ b.localX mx my ≤ b.width / 2
    ∧ -(b.height / 2) ≤ b.localY mx my ∧ b.localY mx my ≤ b.height / 2

/-- ImageShape.isInside is textually identical to Rectangle.isInside. -/
def ImageShape.isInside (b : Box) (mx my : ℝ) : Prop :=
  Rectangle.isInside b mx my

/-- Diamond.isInside: first the bounding-box early-out (returning false
when the local point escapes the box), then the taxicab-ball membership
test against the diamond boundary. -/
def Diamond.isInside (b : Box) (mx my : ℝ) : Prop :=
  ¬ (b.localX mx my < -(b.width / 2) ∨ b.localX mx my > b.width / 2
      ∨ b.localY mx my < -(b.height / 2) ∨ b.localY mx my > b.height / 2)
    ∧ |b.localX mx my| / (b.width / 2) + |b.localY mx my| / (b.height / 2) ≤ 1

/-- The Circle class fields: position is the center; the angle and flip
flags exist on the base class but do not affect the disk hit test. -/
structure CircleShape where
  x : ℝ
  y : ℝ
  radius : ℝ
  angle : ℝ
  flipH : Bool
  flipV : Bool

/-- Circle.isInside: squared distance from the center against the squared
radius; rotation and flips are irrelevant to a disk. -/
def CircleShape.isInside (c : CircleShape) (mx my : ℝ) : Prop :=
  (mx - c.x) * (mx - c.x) + (my - c.y) * (my - c.y) ≤ c.radius * c.radius

/-- The Text class geometric fields: top-left anchor plus the measured
width/height; Text has no rotation. -/
structure TextShape where
  x : ℝ
  y : ℝ
  width : ℝ
  height : ℝ

/-- Text.isInside: plain axis-aligned bounding-box test. -/
def TextShape.isInside (t : TextShape) (mx my : ℝ) : Prop :=
  t.x ≤ mx ∧ mx ≤ t.x + t.width ∧ t.y ≤ my ∧ my ≤ t.y + t.height

/-- The Line class fields: the base-class anchor x/y plus both endpoints
(real-valued geometry model). -/
structure LineShape where
  x : ℝ
  y : ℝ
  x1 : ℝ
  y1 : ℝ
  x2 : ℝ
  y2 : ℝ

/-- The Line constructor: the base anchor is set to the start point. -/
def lineShapeNew (x1 y1 x2 y2 : ℝ) : LineShape :=
  { x := x1, y := y1, x1 := x1, y1 := y1, x2 := x2, y2 := y2 }

/-- getCenter as inherited by Line: the base Shape.getCenter, which
returns the anchor point; the Line class does not override it. -/
def LineShape.getCenter (l : LineShape) : ℝ × ℝ := (l.x, l.y)

/-- Squared length of the segment (the lenSq local of Line.isInside). -/
def lineLenSq (l : LineShape) : ℝ :=
  (l.x2 - l.x1) * (l.x2 - l.x1) + (l.y2 - l.y1) * (l.y2 - l.y1)

/-- The clamped projection parameter t of Line.isInside. -/
def lineT (l : LineShape) (mx my : ℝ) : ℝ :=
  max 0 (min 1
    (((mx - l.x1) * (l.x2 - l.x1) + (my - l.y1) * (l.y2 - l.y1)) / lineLenSq l))

/-- Line.isInside: squared distance from the closest point of the segment
against the squared tolerance (5); a zero-length line falls back to the
point-to-point distance. -/
def LineShape.isInside (l : LineShape) (mx my : ℝ) : Prop :=
  if lineLenSq l = 0 then
    (mx - l.x1) ^ 2 + (my - l.y1) ^ 2 ≤ 5 * 5
  else
    (mx - (l.x1 + lineT l mx my * (l.x2 - l.x1))) ^ 2
      + (my - (l.y1 + lineT l mx my * (l.y2 - l.y1))) ^ 2 ≤ 5 * 5

/-- The handle size constant in the real-valued geometry model. -/
def handleSizeR : ℝ := 8

/-- Distance of the rotation handle above the top-center handle. -/
def rotationHandleOffset : ℝ := 20

/-- A handle as returned by getHandles: world position of the top-left
corner of the handle square, plus its kind. -/
structure Handle where
  x : ℝ
  y : ℝ
  kind : HandleKind

/-- The unrotated handle positions relative to the center, in source
order: the 8 resize handles followed by the rotation handle. -/
def boxRelHandles (b : Box) : List (ℝ × ℝ × HandleKind) :=
  [(-(b.width / 2), -(b.height / 2), HandleKind.topLeft),
   (0, -(b.height / 2), HandleKind.topCenter),
   (b.width / 2, -(b.height / 2), HandleKind.topRight),
   (-(b.width / 2), 0, HandleKind.middleLeft),
   (b.width / 2, 0, HandleKind.middleRight),
   (-(b.width / 2), b.height / 2, HandleKind.bottomLeft),
   (0, b.height / 2, HandleKind.bottomCenter),
   (b.width / 2, b.height / 2, HandleKind.bottomRight),
   (0, -(b.height / 2) - rotationHandleOffset, HandleKind.rotation)]

/-- getHandles, textually identical in Rectangle, Diamond and ImageShape:
each relative position is flipped (multiplied by the flip signs), rotated
by the angle, translated to world space, and finally shifted by half the
handle size so the returned point is the top-left corner of the drawn
handle square. -/
def Box.getHandles (b : Box) : List Handle :=
  (boxRelHandles b).map fun rel =>
    { x := b.centerX + (rel.1 * flipSign b.flipH * Real.cos b.angle
          - rel.2.1 * flipSign b.flipV * Real.sin b.angle) - handleSizeR / 2
      y := b.centerY + (rel.1 * flipSign b.flipH * Real.sin b.angle
          + rel.2.1 * flipSign b.flipV * Real.cos b.angle) - handleSizeR / 2
      kind := rel.2.2 }

/-- A concrete unrotated, unflipped 100 by 60 box at the origin. -/
def demoBox : Box :=
  { x := 0, y := 0, width := 100, height := 60, angle := 0,
    flipH := false, flipV := false }

/-- The drag threshold constant (3 screen pixels). -/
def dragThreshold : ℝ := 3

/-- The state the mousemove drag logic reads and writes: the dragging
flag, the selected shape's anchor, the canvas-space pointer-down point
and the drag offset computed when the drag starts. -/
structure DragState where
  isDragging : Bool
  shapeX : ℝ
  shapeY : ℝ
  initialMouseDownX : ℝ
  initialMouseDownY : ℝ
  dragOffsetX : ℝ
  dragOffsetY : ℝ

/-- The drag-start condition of the mousemove handler: the canvas-space
distance since pointer-down times the zoom level (that is, the
screen-space displacement) exceeds the threshold. -/
def dragThresholdExceeded (zoom mx my : ℝ) (s : DragState) : Prop :=
  Real.sqrt ((mx - s.initialMouseDownX) * (mx - s.initialMouseDownX)
      + (my - s.initialMouseDownY) * (my - s.initialMouseDownY)) * zoom
    > dragThreshold

/-- One mousemove event in the body-selected scenario (a shape selected by
pointer-down on its body, no resize/rotate handle active), as a step
relation because the branch condition involves a real square root.  When
the threshold is crossed the handler sets the dragging flag and the drag
offset, and the drag branch of the same event then writes the anchor as
pointer minus offset (which equals the current anchor at that instant). -/
inductive MousemoveStep (zoom mx my : ℝ) : DragState → DragState → Prop where
  | startDrag (s : DragState) (hd : s.isDragging = false)
      (hex : dragThresholdExceeded zoom mx my s) :
      MousemoveStep zoom mx my s
        { s with
          isDragging := true
          dragOffsetX := mx - s.shapeX
          dragOffsetY := my - s.shapeY
          shapeX := mx - (mx - s.shapeX)
          shapeY := my - (my - s.shapeY) }
  | belowThreshold (s : DragState) (hd : s.isDragging = false)
      (hex : ¬ dragThresholdExceeded zoom mx my s) :
      MousemoveStep zoom mx my s s
  | continueDrag (s : DragState) (hd : s.isDragging = true) :
      MousemoveStep zoom mx my s
        { s with shapeX := mx - s.dragOffsetX, shapeY := my - s.dragOffsetY }

/-- A concrete pending-drag state at the origin. -/
def demoDragState : DragState :=
  { isDragging := false, shapeX := 0, shapeY := 0,
    initialMouseDownX := 0, initialMouseDownY := 0,
    dragOffsetX := 0, dragOffsetY := 0 }

end RealGeometry

/-- A default rectangle shape used to build concrete test states. -/
def rectShape0 : Shape := { ty := ShapeType.rectangle }

/-- A concrete editor state with one rectangle in the scene, already
committed once, with that rectangle selected and also sitting in the
clipboard. -/
def flipDemoState : AppState :=
  { shapes := [rectShape0]
    history := [[rectShape0]]
    historyIndex := 0
    selectedShape := some 0
    clipboardShape := some rectShape0 }

end Flowchart

namespace Flowchart

lemma redoStack_foldl_commits (L : List (List Shape)) (st : AppState)
    (h : st.redoStack = []) :
    (L.foldl (fun a s => commit s a) st).redoStack = [] := by
  induction L generalizing st with
  | nil => simpa using h
  | cons s L ih => exact ih _ (by simp [commit, saveState])

lemma undo_redo_of_redoStack_nil (st : AppState) (h : st.redoStack = []) :
    (redo (undo st)).shapes = st.shapes := by
  by_cases hle : st.historyIndex ≤ 0
  · rw [undo, if_pos hle, redo, if_pos h]
  · rw [undo, if_neg hle]
    rw [redo]
    simp [h]

/-- C1: for every sequence of committed scene snapshots, calling undo and
then redo restores the scene exactly as it was before the undo, shape for
shape and field for field (ids included: the deep clones used by the
history preserve them, and no paste is involved). -/
theorem undo_redo_roundtrip (L : List (List Shape)) :
    (redo (undo (runCommits L))).shapes = (runCommits L).shapes :=
  undo_redo_of_redoStack_nil _
    (redoStack_foldl_commits L (saveState initState) rfl)

lemma getLast?_append_singleton {α : Type} (l : List α) (a : α) :
    (l ++ [a]).getLast? = some a := by
  simp

/-- C7 (amended): after a shape add, delete, color change or paste the
newest entry of the undo history equals the scene as it stands after the
action; after a flip toggle, however, the handler calls saveState before
mutating the shape, so the newest entry equals the scene as it stood
immediately BEFORE the toggle. -/
theorem commit_snapshot_newest (st : AppState) (sh shClip : Shape) (c : String)
    (newId : ℚ) (i : Nat)
    (hsel : st.selectedShape = some i)
    (hline : (st.shapes.getD i default).ty ≠ ShapeType.line)
    (hclip : st.clipboardShape = some shClip) :
    ((addNewShape sh st).history.getLast? = some (addNewShape sh st).shapes)
    ∧ ((deleteSelected st).history.getLast? = some (deleteSelected st).shapes)
    ∧ ((colorInput c st).history.getLast? = some (colorInput c st).shapes)
    ∧ ((handlePasteCanvas newId st).history.getLast? =
        some (handlePasteCanvas newId st).shapes)
    ∧ ((flipHorizontalClick st).history.getLast? = some st.shapes)
    ∧ ((flipVerticalClick st).history.getLast? = some st.shapes) := by
  refine ⟨?_, ?_, ?_, ?_, ?_, ?_⟩
  · simp [addNewShape, setActiveTool, saveState, getLast?_append_singleton]
  · simp [deleteSelected, hsel, saveState, getLast?_append_singleton]
  · simp only [List.getD_eq_getElem?_getD] at hline
    simp [colorInput, hsel, hline, saveState, getLast?_append_singleton]
  · simp [handlePasteCanvas, hclip, saveState, getLast?_append_singleton]
  · simp [flipHorizontalClick, hsel, saveState, getLast?_append_singleton]
  · simp [flipVerticalClick, hsel, saveState, getLast?_append_singleton]

theorem commit_snapshot_newest_witness :
    ((flipHorizontalClick flipDemoState).history.getLast? =
      some flipDemoState.shapes) :=
  (commit_snapshot_newest flipDemoState rectShape0 rectShape0 "red" 5 0
    rfl (by decide) rfl).2.2.2.2.1

/-- C7 counterexample: in a concrete one-rectangle state, after clicking
the horizontal-flip button the newest history entry is NOT the post-toggle
scene (it is the pre-toggle scene, whose flipH flag differs). -/
theorem flip_snapshot_not_post :
    ¬ ((flipHorizontalClick flipDemoState).history.getLast? =
        some (flipHorizontalClick flipDemoState).shapes) := by
  decide

/-- C8: on mouseup while drawing a line, if the final mouse position
differs from the recorded start point then a Line with those endpoints is
appended, the newest history entry equals the resulting scene, and the
tool resets to default; if start and end coincide exactly, the resulting
state only clears the drawing flag: no shape is added, no snapshot is
committed, the scene and tool are unchanged, and no error is raised (the
handler is total). -/
theorem mouseup_line_finalize (mouseX mouseY newId : ℚ) (st : AppState) :
    (¬ (st.lineStartX = mouseX ∧ st.lineStartY = mouseY) →
      (mouseupDrawingLine mouseX mouseY newId st).shapes =
          st.shapes ++
            [lineNew st.lineStartX st.lineStartY mouseX mouseY st.currentColor newId]
        ∧ (mouseupDrawingLine mouseX mouseY newId st).history.getLast? =
            some (mouseupDrawingLine mouseX mouseY newId st).shapes
        ∧ (mouseupDrawingLine mouseX mouseY newId st).currentShapeType = Tool.default)
    ∧ (st.lineStartX = mouseX ∧ st.lineStartY = mouseY →
      mouseupDrawingLine mouseX mouseY newId st = { st with isDrawingLine := false }) := by
  constructor
  · intro h
    rw [mouseupDrawingLine, if_neg h]
    refine ⟨rfl, ?_, rfl⟩
    simp [saveState, setActiveTool, getLast?_append_singleton]
  · intro h
    rw [mouseupDrawingLine, if_pos h]

theorem mouseup_line_finalize_witness :
    (mouseupDrawingLine 1 1 5 initState).currentShapeType = Tool.default ∧
    mouseupDrawingLine 0 0 5 initState = { initState with isDrawingLine := false } :=
  ⟨((mouseup_line_finalize 1 1 5 initState).1 (by decide)).2.2,
   (mouseup_line_finalize 0 0 5 initState).2 (by decide)⟩

/-- C10: invoking copy with no shape selected clears the single-slot
clipboard, and a subsequent paste is then a complete no-op: the whole
state (scene, selection, history, redo stack, cursor, clipboard, tool) is
unchanged. -/
theorem copy_empty_then_paste_noop (st : AppState)
    (hsel : st.selectedShape = none) :
    (handleCopyCanvas st).clipboardShape = none
    ∧ ∀ newId : ℚ,
        handlePasteCanvas newId (handleCopyCanvas st) = handleCopyCanvas st := by
  constructor
  · simp [handleCopyCanvas, hsel]
  · intro newId
    simp [handleCopyCanvas, hsel, handlePasteCanvas]

theorem copy_empty_then_paste_noop_witness :
    (handleCopyCanvas initState).clipboardShape = none ∧
    handlePasteCanvas 5 (handleCopyCanvas initState) = handleCopyCanvas initState :=
  ⟨(copy_empty_then_paste_noop initState rfl).1,
   (copy_empty_then_paste_noop initState rfl).2 5⟩

/-- C3: rectangles, diamonds and image shapes have width and height at
least twice the handle size after construction, and every resize step
preserves that bound: dragging past the opposite edge clamps at minSize
and the resulting dimensions are in particular strictly positive, never
negative. -/
theorem box_min_size (x y w h : ℚ) (c : Option String) (nid : ℚ)
    (g : BoxGeom) (tmx tmy : ℚ) (hk : HandleKind)
    (hw : minSize ≤ g.w) (hh : minSize ≤ g.h) :
    (minSize ≤ (rectangleNew x y w h c nid).width
      ∧ minSize ≤ (rectangleNew x y w h c nid).height)
    ∧ (minSize ≤ (diamondNew x y w h c nid).width
      ∧ minSize ≤ (diamondNew x y w h c nid).height)
    ∧ (minSize ≤ (imageShapeNew x y w h nid).width
      ∧ minSize ≤ (imageShapeNew x y w h nid).height)
    ∧ (minSize ≤ (resizeBox hk g tmx tmy).w
      ∧ minSize ≤ (resizeBox hk g tmx tmy).h
      ∧ 0 < (resizeBox hk g tmx tmy).w
      ∧ 0 < (resizeBox hk g tmx tmy).h) := by
  have h0 : (0:ℚ) < minSize := by norm_num [minSize, handleSize]
  have hgw : (0:ℚ) < g.w := lt_of_lt_of_le h0 hw
  have hgh : (0:ℚ) < g.h := lt_of_lt_of_le h0 hh
  refine ⟨⟨le_max_right _ _, le_max_right _ _⟩,
          ⟨le_max_right _ _, le_max_right _ _⟩,
          ⟨le_max_right _ _, le_max_right _ _⟩, ?_⟩
  cases hk <;>
    exact ⟨by simp [resizeBox, hw, hh, le_max_iff],
           by simp [resizeBox, hw, hh, le_max_iff],
           by simp [resizeBox, hgw, hgh, lt_max_iff, h0],
           by simp [resizeBox, hgw, hgh, lt_max_iff, h0]⟩

theorem box_min_size_witness :
    minSize ≤ (resizeBox HandleKind.topLeft ⟨0, 0, minSize, minSize⟩ 100 100).w :=
  (box_min_size 0 0 0 0 none 0 ⟨0, 0, minSize, minSize⟩ 100 100 HandleKind.topLeft
    (le_refl minSize) (le_refl minSize)).2.2.2.1

/-- C4: after a wheel zoom centered at screen point P, for every starting
pan offset and zoom level and both directions (clamping included), the new
zoom level is positive and the canvas point that was under P before the
zoom still maps exactly back to P; the round trip through the new
transform is likewise exact (rational arithmetic, so within any
floating-point tolerance). -/
theorem zoom_anchor_stable (v : ViewTransform) (px py : ℚ) (zoomIn : Bool)
    (hz : 0 < v.zoomLevel) :
    0 < (wheelZoom v px py zoomIn).zoomLevel
    ∧ canvasToScreenX (wheelZoom v px py zoomIn) (screenToCanvasX v px) = px
    ∧ canvasToScreenY (wheelZoom v px py zoomIn) (screenToCanvasY v py) = py
    ∧ canvasToScreenX (wheelZoom v px py zoomIn)
        (screenToCanvasX (wheelZoom v px py zoomIn) px) = px
    ∧ canvasToScreenY (wheelZoom v px py zoomIn)
        (screenToCanvasY (wheelZoom v px py zoomIn) py) = py := by
  have h0 : (0:ℚ) < minZoom := by norm_num [minZoom]
  have hzl : 0 < (wheelZoom v px py zoomIn).zoomLevel := by
    simp only [wheelZoom]
    exact lt_of_lt_of_le h0 (le_max_left _ _)
  refine ⟨hzl, ?_, ?_, ?_, ?_⟩
  · simp only [wheelZoom, canvasToScreenX, screenToCanvasX]
    ring
  · simp only [wheelZoom, canvasToScreenY, screenToCanvasY]
    ring
  · simp only [canvasToScreenX, screenToCanvasX]
    rw [div_mul_cancel₀ _ (ne_of_gt hzl)]
    ring
  · simp only [canvasToScreenY, screenToCanvasY]
    rw [div_mul_cancel₀ _ (ne_of_gt hzl)]
    ring

theorem zoom_anchor_stable_witness :
    0 < (wheelZoom ⟨1, 0, 0⟩ 3 4 true).zoomLevel :=
  (zoom_anchor_stable ⟨1, 0, 0⟩ 3 4 true one_pos).1

/-- C5 (amended): for every Line shape, getCenter — the base Shape
implementation, which Line does not override — returns the line's start
point (x1, y1), not the midpoint of the endpoints; the two agree only
when the endpoints coincide. -/
theorem line_getCenter_start (x1 y1 x2 y2 : ℝ) :
    (lineShapeNew x1 y1 x2 y2).getCenter = (x1, y1) := rfl

/-- C5 counterexample: for the concrete line from (0,0) to (2,2),
getCenter returns the start point (0,0) and not the midpoint (1,1). -/
theorem line_getCenter_not_midpoint :
    (lineShapeNew 0 0 2 2).getCenter ≠ (((0:ℝ) + 2) / 2, ((0:ℝ) + 2) / 2) := by
  simp only [lineShapeNew, LineShape.getCenter, ne_eq, Prod.mk.injEq, not_and]
  intro h
  norm_num at h

/-- C6 (amended): getHandles on an unrotated, unflipped box shape returns
nine handles: the eight resize handles sit at the corners and edge
midpoints of an axis-aligned rectangle of exactly the shape's width and
height, each returned point shifted by half the handle size in both axes
(it is the top-left corner of a handle square centred on the boundary
point), followed by the rotation handle 20 units above the top-center
one. -/
theorem box_handles_unrotated (b : Box) (ha : b.angle = 0)
    (hfh : b.flipH = false) (hfv : b.flipV = false) :
    b.getHandles = [
      ⟨b.x - handleSizeR / 2, b.y - handleSizeR / 2, HandleKind.topLeft⟩,
      ⟨b.x + b.width / 2 - handleSizeR / 2, b.y - handleSizeR / 2,
        HandleKind.topCenter⟩,
      ⟨b.x + b.width - handleSizeR / 2, b.y - handleSizeR / 2,
        HandleKind.topRight⟩,
      ⟨b.x - handleSizeR / 2, b.y + b.height / 2 - handleSizeR / 2,
        HandleKind.middleLeft⟩,
      ⟨b.x + b.width - handleSizeR / 2, b.y + b.height / 2 - handleSizeR / 2,
        HandleKind.middleRight⟩,
      ⟨b.x - handleSizeR / 2, b.y + b.height - handleSizeR / 2,
        HandleKind.bottomLeft⟩,
      ⟨b.x + b.width / 2 - handleSizeR / 2, b.y + b.height - handleSizeR / 2,
        HandleKind.bottomCenter⟩,
      ⟨b.x + b.width - handleSizeR / 2, b.y + b.height - handleSizeR / 2,
        HandleKind.bottomRight⟩,
      ⟨b.x + b.width / 2 - handleSizeR / 2,
        b.y - rotationHandleOffset - handleSizeR / 2, HandleKind.rotation⟩] := by
  simp only [Box.getHandles, boxRelHandles, ha, hfh, hfv, flipSign,
    Real.cos_zero, Real.sin_zero, Box.centerX, Box.centerY,
    List.map_cons, List.map_nil, if_neg Bool.false_ne_true,
    List.cons.injEq, Handle.mk.injEq, and_true, List.cons_ne_nil]
  norm_num
  repeat' apply And.intro
  all_goals first
    | trivial
    | ring

theorem box_handles_unrotated_witness :
    Box.getHandles demoBox = [
      ⟨demoBox.x - handleSizeR / 2, demoBox.y - handleSizeR / 2,
        HandleKind.topLeft⟩,
      ⟨demoBox.x + demoBox.width / 2 - handleSizeR / 2,
        demoBox.y - handleSizeR / 2, HandleKind.topCenter⟩,
      ⟨demoBox.x + demoBox.width - handleSizeR / 2,
        demoBox.y - handleSizeR / 2, HandleKind.topRight⟩,
      ⟨demoBox.x - handleSizeR / 2,
        demoBox.y + demoBox.height / 2 - handleSizeR / 2,
        HandleKind.middleLeft⟩,
      ⟨demoBox.x + demoBox.width - handleSizeR / 2,
        demoBox.y + demoBox.height / 2 - handleSizeR / 2,
        HandleKind.middleRight⟩,
      ⟨demoBox.x - handleSizeR / 2,
        demoBox.y + demoBox.height - handleSizeR / 2, HandleKind.bottomLeft⟩,
      ⟨demoBox.x + demoBox.width / 2 - handleSizeR / 2,
        demoBox.y + demoBox.height - handleSizeR / 2,
        HandleKind.bottomCenter⟩,
      ⟨demoBox.x + demoBox.width - handleSizeR / 2,
        demoBox.y + demoBox.height - handleSizeR / 2,
        HandleKind.bottomRight⟩,
      ⟨demoBox.x + demoBox.width / 2 - handleSizeR / 2,
        demoBox.y - rotationHandleOffset - handleSizeR / 2,
        HandleKind.rotation⟩] :=
  box_handles_unrotated demoBox rfl rfl rfl

lemma flipSign_false : flipSign false = 1 := rfl

lemma flipSign_true : flipSign true = -1 := rfl

lemma flipSign_sq (bf : Bool) (a : ℝ) : (a / flipSign bf) ^ 2 = a ^ 2 := by
  cases bf
  · rw [flipSign_false, div_one]
  · rw [flipSign_true, div_neg, div_one, neg_sq]

lemma Box.local_sq_eq (b : Box) (mx my : ℝ) :
    b.localX mx my ^ 2 + b.localY mx my ^ 2
      = (mx - b.centerX) ^ 2 + (my - b.centerY) ^ 2 := by
  have hcs : Real.sin (-b.angle) ^ 2 + Real.cos (-b.angle) ^ 2 = 1 :=
    Real.sin_sq_add_cos_sq (-b.angle)
  have key : b.localX mx my ^ 2 + b.localY mx my ^ 2
      = (((mx - b.centerX) / flipSign b.flipH) ^ 2
          + ((my - b.centerY) / flipSign b.flipV) ^ 2)
        * (Real.sin (-b.angle) ^ 2 + Real.cos (-b.angle) ^ 2) := by
    unfold Box.localX Box.localY
    ring
  rw [key, hcs, mul_one, flipSign_sq, flipSign_sq]

lemma box_center_localX (b : Box) : b.localX b.centerX b.centerY = 0 := by
  unfold Box.localX
  simp

lemma box_center_localY (b : Box) : b.localY b.centerX b.centerY = 0 := by
  unfold Box.localY
  simp

lemma rect_center (b : Box) (hbw : 0 ≤ b.width) (hbh : 0 ≤ b.height) :
    Rectangle.isInside b b.centerX b.centerY := by
  unfold Rectangle.isInside
  rw [box_center_localX, box_center_localY]
  refine ⟨by linarith, by linarith, by linarith, by linarith⟩

lemma rect_far (b : Box) (mx my : ℝ)
    (hfar : (b.width / 2) ^ 2 + (b.height / 2) ^ 2
        < (mx - b.centerX) ^ 2 + (my - b.centerY) ^ 2) :
    ¬ Rectangle.isInside b mx my := by
  rintro ⟨h1, h2, h3, h4⟩
  have e := Box.local_sq_eq b mx my
  have hx2 : b.localX mx my ^ 2 ≤ (b.width / 2) ^ 2 := sq_le_sq' h1 h2
  have hy2 : b.localY mx my ^ 2 ≤ (b.height / 2) ^ 2 := sq_le_sq' h3 h4
  linarith

lemma diamond_center (b : Box) (hbw : 0 ≤ b.width) (hbh : 0 ≤ b.height) :
    Diamond.isInside b b.centerX b.centerY := by
  unfold Diamond.isInside
  rw [box_center_localX, box_center_localY]
  constructor
  · push_neg
    refine ⟨by linarith, by linarith, by linarith, by linarith⟩
  · simp

lemma diamond_far (b : Box) (mx my : ℝ)
    (hfar : (b.width / 2) ^ 2 + (b.height / 2) ^ 2
        < (mx - b.centerX) ^ 2 + (my - b.centerY) ^ 2) :
    ¬ Diamond.isInside b mx my := by
  rintro ⟨hbox, _⟩
  push_neg at hbox
  obtain ⟨n1, n2, n3, n4⟩ := hbox
  exact rect_far b mx my hfar ⟨n1, n2, n3, n4⟩

lemma line_center_inside (x1 y1 x2 y2 : ℝ) :
    (lineShapeNew x1 y1 x2 y2).isInside x1 y1 := by
  unfold LineShape.isInside
  by_cases h0 : lineLenSq (lineShapeNew x1 y1 x2 y2) = 0
  · rw [if_pos h0]
    simp [lineShapeNew]
  · rw [if_neg h0]
    have ht : lineT (lineShapeNew x1 y1 x2 y2) x1 y1 = 0 := by
      unfold lineT
      simp [lineShapeNew]
    rw [ht]
    simp [lineShapeNew]

lemma line_far_not_inside (l : LineShape) (mx my : ℝ)
    (hfar : (Real.sqrt (lineLenSq l) + 5) ^ 2
        < (mx - l.x1) ^ 2 + (my - l.y1) ^ 2) :
    ¬ l.isInside mx my := by
  intro hin
  unfold LineShape.isInside at hin
  by_cases h0 : lineLenSq l = 0
  · rw [if_pos h0] at hin
    rw [h0, Real.sqrt_zero] at hfar
    norm_num at hfar
    linarith
  · rw [if_neg h0] at hin
    have hlennn : 0 ≤ lineLenSq l := by
      unfold lineLenSq
      have h1 := mul_self_nonneg (l.x2 - l.x1)
      have h2 := mul_self_nonneg (l.y2 - l.y1)
      linarith
    set L := Real.sqrt (lineLenSq l) with hLdef
    have hL2 : L ^ 2 = lineLenSq l := Real.sq_sqrt hlennn
    have hL0 : 0 ≤ L := Real.sqrt_nonneg _
    set t := lineT l mx my with htdef
    have ht0 : 0 ≤ t := by
      rw [htdef]
      unfold lineT
      exact le_max_left _ _
    have ht1 : t ≤ 1 := by
      rw [htdef]
      unfold lineT
      exact max_le (by norm_num) (min_le_left _ _)
    have hvnn : 0 ≤ (mx - l.x1) ^ 2 + (my - l.y1) ^ 2 := by positivity
    set nv := Real.sqrt ((mx - l.x1) ^ 2 + (my - l.y1) ^ 2) with hnvdef
    have hnv2 : nv ^ 2 = (mx - l.x1) ^ 2 + (my - l.y1) ^ 2 := Real.sq_sqrt hvnn
    have hnv0 : 0 ≤ nv := Real.sqrt_nonneg _
    have hbig : L + 5 < nv := by
      have h1 : (L + 5) ^ 2 < nv ^ 2 := by
        rw [hnv2]
        exact hfar
      exact lt_of_pow_lt_pow_left 2 hnv0 h1
    have hCS : (mx - l.x1) * (l.x2 - l.x1) + (my - l.y1) * (l.y2 - l.y1)
        ≤ nv * L := by
      have hsq : ((mx - l.x1) * (l.x2 - l.x1) + (my - l.y1) * (l.y2 - l.y1)) ^ 2
          ≤ (nv * L) ^ 2 := by
        rw [mul_pow, hnv2, hL2]
        unfold lineLenSq
        nlinarith [sq_nonneg ((mx - l.x1) * (l.y2 - l.y1)
          - (my - l.y1) * (l.x2 - l.x1))]
      exact le_of_pow_le_pow_left two_ne_zero (mul_nonneg hnv0 hL0) hsq
    have hexp : (mx - (l.x1 + t * (l.x2 - l.x1))) ^ 2
          + (my - (l.y1 + t * (l.y2 - l.y1))) ^ 2
        = ((mx - l.x1) ^ 2 + (my - l.y1) ^ 2)
          - 2 * (t * ((mx - l.x1) * (l.x2 - l.x1) + (my - l.y1) * (l.y2 - l.y1)))
          + t ^ 2 * lineLenSq l := by
      unfold lineLenSq
      ring
    have hmono : (nv - t * L) ^ 2
        ≤ (mx - (l.x1 + t * (l.x2 - l.x1))) ^ 2
          + (my - (l.y1 + t * (l.y2 - l.y1))) ^ 2 := by
      rw [hexp]
      have h2 : t * ((mx - l.x1) * (l.x2 - l.x1) + (my - l.y1) * (l.y2 - l.y1))
          ≤ t * (nv * L) := mul_le_mul_of_nonneg_left hCS ht0
      have hexpand : (nv - t * L) ^ 2
          = ((mx - l.x1) ^ 2 + (my - l.y1) ^ 2) - 2 * (t * (nv * L))
            + t ^ 2 * lineLenSq l := by
        rw [← hnv2, ← hL2]
        ring
      rw [hexpand]
      linarith
    have htL : t * L ≤ L := by
      calc t * L ≤ 1 * L := mul_le_mul_of_nonneg_right ht1 hL0
        _ = L := one_mul L
    have h25 : (5:ℝ) ^ 2 < (nv - t * L) ^ 2 := by
      have h5 : (5:ℝ) < nv - t * L := by linarith
      exact pow_lt_pow_left h5 (by norm_num) (by norm_num)
    have hfin : (5:ℝ) ^ 2 < (mx - (l.x1 + t * (l.x2 - l.x1))) ^ 2
        + (my - (l.y1 + t * (l.y2 - l.y1))) ^ 2 := lt_of_lt_of_le h25 hmono
    norm_num at hfin
    linarith

/-- C2: for every shape type (rectangle, image, diamond, circle, text,
line), every rotation angle (in particular the claimed set 0, pi/6, pi/2,
pi) and every combination of the two flip flags, isInside applied to the
shape's own center returns true, and applied to any point strictly beyond
the shape's bounding radius (measured from the center used by the
respective hit test) returns false.  Box-like shapes need nonnegative
dimensions, which the constructors guarantee. -/
theorem hit_test_center_far
    (b : Box) (c : CircleShape) (t : TextShape)
    (hbw : 0 ≤ b.width) (hbh : 0 ≤ b.height)
    (htw : 0 ≤ t.width) (hth : 0 ≤ t.height) :
    (Rectangle.isInside b b.centerX b.centerY
      ∧ ∀ mx my : ℝ, (b.width / 2) ^ 2 + (b.height / 2) ^ 2
            < (mx - b.centerX) ^ 2 + (my - b.centerY) ^ 2 →
          ¬ Rectangle.isInside b mx my)
    ∧ (ImageShape.isInside b b.centerX b.centerY
      ∧ ∀ mx my : ℝ, (b.width / 2) ^ 2 + (b.height / 2) ^ 2
            < (mx - b.centerX) ^ 2 + (my - b.centerY) ^ 2 →
          ¬ ImageShape.isInside b mx my)
    ∧ (Diamond.isInside b b.centerX b.centerY
      ∧ ∀ mx my : ℝ, (b.width / 2) ^ 2 + (b.height / 2) ^ 2
            < (mx - b.centerX) ^ 2 + (my - b.centerY) ^ 2 →
          ¬ Diamond.isInside b mx my)
    ∧ (CircleShape.isInside c c.x c.y
      ∧ ∀ mx my : ℝ, c.radius * c.radius
            < (mx - c.x) * (mx - c.x) + (my - c.y) * (my - c.y) →
          ¬ CircleShape.isInside c mx my)
    ∧ (TextShape.isInside t (t.x + t.width / 2) (t.y + t.height / 2)
      ∧ ∀ mx my : ℝ, (t.width / 2) ^ 2 + (t.height / 2) ^ 2
            < (mx - (t.x + t.width / 2)) ^ 2 + (my - (t.y + t.height / 2)) ^ 2 →
          ¬ TextShape.isInside t mx my)
    ∧ (∀ x1 y1 x2 y2 : ℝ,
        (lineShapeNew x1 y1 x2 y2).isInside
            ((lineShapeNew x1 y1 x2 y2).getCenter.1)
            ((lineShapeNew x1 y1 x2 y2).getCenter.2)
        ∧ ∀ mx my : ℝ,
            (Real.sqrt (lineLenSq (lineShapeNew x1 y1 x2 y2)) + 5) ^ 2
              < (mx - x1) ^ 2 + (my - y1) ^ 2 →
            ¬ (lineShapeNew x1 y1 x2 y2).isInside mx my) := by
  refine ⟨⟨rect_center b hbw hbh, fun mx my hfar => rect_far b mx my hfar⟩,
          ⟨rect_center b hbw hbh, fun mx my hfar hin => rect_far b mx my hfar hin⟩,
          ⟨diamond_center b hbw hbh, fun mx my hfar => diamond_far b mx my hfar⟩,
          ⟨?_, ?_⟩, ⟨?_, ?_⟩, ?_⟩
  · have := mul_self_nonneg c.radius
    simpa [CircleShape.isInside] using this
  · intro mx my hfar hin
    unfold CircleShape.isInside at hin
    linarith
  · unfold TextShape.isInside
    refine ⟨by linarith, by linarith, by linarith, by linarith⟩
  · rintro mx my hfar ⟨h1, h2, h3, h4⟩
    have hx2 : (mx - (t.x + t.width / 2)) ^ 2 ≤ (t.width / 2) ^ 2 :=
      sq_le_sq' (by linarith) (by linarith)
    have hy2 : (my - (t.y + t.height / 2)) ^ 2 ≤ (t.height / 2) ^ 2 :=
      sq_le_sq' (by linarith) (by linarith)
    linarith
  · intro x1 y1 x2 y2
    exact ⟨line_center_inside x1 y1 x2 y2,
           fun mx my hfar => line_far_not_inside _ mx my hfar⟩

theorem hit_test_center_far_witness :
    Rectangle.isInside ⟨0, 0, 1, 1, 0, false, false⟩
      (Box.centerX ⟨0, 0, 1, 1, 0, false, false⟩)
      (Box.centerY ⟨0, 0, 1, 1, 0, false, false⟩) :=
  (hit_test_center_far ⟨0, 0, 1, 1, 0, false, false⟩ ⟨0, 0, 1, 0, false, false⟩
    ⟨0, 0, 1, 1⟩ zero_le_one zero_le_one zero_le_one zero_le_one).1.1

/-- C9: in the body-selected pending-drag scenario, one mousemove event
enters the Dragging state exactly when the screen-space displacement
since pointer-down (canvas-space distance times zoom) exceeds the 3-pixel
threshold; in that same event and before it the shape's position is
unchanged (at the crossing instant the handler writes pointer minus the
just-computed offset, which equals the current anchor). -/
theorem drag_threshold_exact (zoom mx my : ℝ) (s s2 : DragState)
    (hpend : s.isDragging = false)
    (hstep : MousemoveStep zoom mx my s s2) :
    (s2.isDragging = true ↔ dragThresholdExceeded zoom mx my s)
    ∧ s2.shapeX = s.shapeX ∧ s2.shapeY = s.shapeY := by
  cases hstep with
  | startDrag hd hex =>
      refine ⟨iff_of_true rfl hex, ?_, ?_⟩
      · show mx - (mx - s.shapeX) = s.shapeX
        ring
      · show my - (my - s.shapeY) = s.shapeY
        ring
  | belowThreshold hd hex =>
      refine ⟨?_, rfl, rfl⟩
      rw [hpend]
      simp [hex]
  | continueDrag hd =>
      rw [hd] at hpend
      simp at hpend

theorem drag_threshold_exact_witness :
    (demoDragState.isDragging = true ↔ dragThresholdExceeded 1 0 0 demoDragState)
    ∧ demoDragState.shapeX = demoDragState.shapeX
    ∧ demoDragState.shapeY = demoDragState.shapeY :=
  drag_threshold_exact 1 0 0 demoDragState demoDragState rfl
    (MousemoveStep.belowThreshold demoDragState rfl
      (by
        unfold dragThresholdExceeded demoDragState dragThreshold
        norm_num))

/-- C6 counterexample: on the concrete unrotated, unflipped box the
handle list has nine entries, not eight, and the first returned point is
offset by half the handle size from the top-left corner, not by the full
handle size. -/
theorem box_handles_not_eight :
    (Box.getHandles demoBox).length ≠ 8
    ∧ ((Box.getHandles demoBox).headD ⟨0, 0, HandleKind.topLeft⟩).x ≠
        demoBox.x - handleSizeR := by
  constructor
  · simp [Box.getHandles, boxRelHandles]
  · simp only [Box.getHandles, boxRelHandles, demoBox, flipSign,
      Real.cos_zero, Real.sin_zero, Box.centerX, Box.centerY, handleSizeR,
      List.map_cons, List.headD_cons, if_neg Bool.false_ne_true]
    norm_num

end Flowchart
